import Mathlib

/-!
Verification of the mutation-table column configuration layer of the
cbioportal-frontend repository, as implemented in
`src/shared/components/mutationTable/MutationTable.tsx`.

The TypeScript code is shallowly embedded:

* A runtime JavaScript value that can sit in a field of a REST-delivered
  `Mutation` record is modelled by `DynVal` (string, number, boolean,
  null, undefined).  JavaScript truthiness and the `String()` coercion
  are modelled by `truthy` and `dynToString`; `toUpperCase`, which
  throws a `TypeError` on a value with no such method, is modelled by
  `dynToUpper` in the `Except JSErr` error monad.
* A `Mutation` record is a JSON object: an association list from field
  names to `DynVal`s.  `Mutation.get` is property access (`undefined`
  for a missing key) and `Mutation.hasOwn` is `hasOwnProperty`.
* Rendered output is modelled by the `JSX` tree: the empty `<span></span>`
  element, a text span, the `<div>` produced by `getDivForDataField`, and
  an opaque node `JSX.fmt tag args` standing for the output of one of the
  external column-formatter modules (those modules live outside this
  repository slice and are abstracted by the `Formatters` parameter
  record; only the arguments computed by `MutationTable.tsx` itself, such
  as `[d[0].sampleId]`, are evaluated here).
* Every column callback runs in `Except JSErr`: the only fatal error the
  embedded code itself can raise is reading a property of `undefined`,
  which happens exactly where the source indexes `d[0]` of an empty
  row-group, and calling `toUpperCase` on a non-string.
-/

/-- A JavaScript runtime value as it can appear in a field of a
REST-delivered `Mutation` JSON object. -/
inductive DynVal where
  | str (s : String)
  | num (n : Int)
  | boolv (b : Bool)
  | nullv
  | undefined
deriving DecidableEq, Repr

/-- JavaScript truthiness of a `DynVal`: the empty string, `0`, `false`,
`null` and `undefined` are falsy, everything else is truthy. -/
def truthy : DynVal → Bool
  | .str s => !(s == "")
  | .num n => !(n == 0)
  | .boolv b => b
  | .nullv => false
  | .undefined => false

/-- The JavaScript `String()` coercion (used by the source in
`getData(d)+''`). -/
def dynToString : DynVal → String
  | .str s => s
  | .num n => toString n
  | .boolv b => if b then "true" else "false"
  | .nullv => "null"
  | .undefined => "undefined"

/-- The one fatal error the embedded code can raise: a `TypeError` from
reading a property of `undefined` or calling a missing method. -/
inductive JSErr where
  | typeErr
deriving DecidableEq, Repr

/-- `s.toUpperCase()` on a string (ASCII case mapping, character by
character). -/
def jsToUpper (s : String) : String :=
  String.mk (s.toList.map Char.toUpper)

/-- `v.toUpperCase()`: defined on strings, a `TypeError` on any other
value (the source only reaches this call on truthy values). -/
def dynToUpper : DynVal → Except JSErr String
  | .str s => .ok (jsToUpper s)
  | _ => .error .typeErr

/-- `needle` is a prefix of `hay` (character lists). -/
def charsHavePre : List Char → List Char → Bool
  | [], _ => true
  | _ :: _, [] => false
  | a :: as, b :: bs => a == b && charsHavePre as bs

/-- `hay` contains `needle` somewhere (character lists): the recursion
behind JavaScript `hay.indexOf(needle) > -1`. -/
def charsHaveSub (needle : List Char) : List Char → Bool
  | [] => charsHavePre needle []
  | h :: t => charsHavePre needle (h :: t) || charsHaveSub needle t

/-- JavaScript `hay.indexOf(needle) > -1`: `needle` occurs as a substring
of `hay`. -/
def jsContainsSubstr (hay needle : String) : Bool :=
  charsHaveSub needle.toList hay.toList

/-- A `Mutation` record as delivered over REST: a JSON object, i.e. an
association list from field names to runtime values.  (The TypeScript
`Mutation` interface is compile-time only; `hasOwnProperty` checks are in
the source precisely because fields can be missing at runtime.) -/
def Mutation := List (String × DynVal)

instance : DecidableEq Mutation := by
  unfold Mutation
  exact inferInstance

/-- Property access `m[f]`: the stored value, or `undefined` when the
object has no such key. -/
def Mutation.get (m : Mutation) (f : String) : DynVal :=
  match m.find? (fun kv => kv.1 == f) with
  | some kv => kv.2
  | none => .undefined

/-- `m.hasOwnProperty(f)`. -/
def Mutation.hasOwn (m : Mutation) (f : String) : Bool :=
  (m.find? (fun kv => kv.1 == f)).isSome

/-- A sort value or download value computed by a column callback: a
primitive or an array of primitives (e.g. `d.map(m=>m.normalRefCount)`). -/
inductive JSVal where
  | prim (v : DynVal)
  | arr (vs : List DynVal)
deriving DecidableEq, Repr

/-- A rendered React element, at the granularity the embedded code
distinguishes: the literal `<span></span>`, a span holding text (tooltips,
header renders), the `<div>` built by `getDivForDataField` (with or
without the `integer-data` style class), and an opaque element produced
by an external column-formatter module, tagged with the formatter call
and the arguments that `MutationTable.tsx` itself computed. -/
inductive JSX where
  | emptySpan
  | textSpan (text : String)
  | divNode (integerClass : Bool) (contents : DynVal)
  | fmt (tag : String) (args : List JSVal)
deriving DecidableEq, Repr

/-- `getTextForDataField` (MutationTable.tsx lines 154-160): start from
the empty string and overwrite it with `data[0][dataField]` exactly when
the row-group is non-empty and its first record owns the field. -/
def getTextForDataField (data : List Mutation) (dataField : String) : DynVal :=
  match data with
  | [] => .str ""
  | m :: _ => if m.hasOwn dataField then m.get dataField else .str ""

/-- `getDivForDataField` (lines 149-152): a `<div>` whose class is the
`integer-data` style exactly when `isInteger` is passed truthy, holding
the text computed by `getTextForDataField`. -/
def getDivForDataField (data : List Mutation) (dataField : String)
    (isInteger : Bool) : JSX :=
  .divNode isInteger (getTextForDataField data dataField)

/-- The body of `defaultFilter`'s `reduce` (lines 164-171), with the
accumulator `acc` playing `match`: a truthy field value is uppercased
(a `TypeError` if it is not a string) and searched for the filter
string; a falsy one leaves the accumulator unchanged. -/
def defaultFilterGo (dataField filterStringUpper : String) (acc : Bool) :
    List Mutation → Except JSErr Bool
  | [] => .ok acc
  | m :: rest =>
    let val := m.get dataField
    if truthy val then
      match dynToUpper val with
      | .ok up =>
        defaultFilterGo dataField filterStringUpper
          (acc || jsContainsSubstr up filterStringUpper) rest
      | .error e => .error e
    else
      defaultFilterGo dataField filterStringUpper acc rest

/-- `defaultFilter` (lines 162-175): `false` on the empty row-group,
otherwise the `reduce` over the rows starting from `false`. -/
def defaultFilter (data : List Mutation) (dataField : String)
    (filterStringUpper : String) : Except JSErr Bool :=
  if data.length > 0 then
    defaultFilterGo dataField filterStringUpper false data
  else
    .ok false

deriving instance DecidableEq for Except

example : defaultFilter [] "sampleId" "ABC" = .ok false := by decide

example :
    defaultFilter [[("sampleId", DynVal.str "xAbCy")]] "sampleId" "ABC" =
      .ok true := by decide

example :
    defaultFilter [[("sampleId", DynVal.num 7)]] "sampleId" "ABC" =
      .error .typeErr := by decide

example : getTextForDataField [] "center" = .str "" := by decide

example :
    getTextForDataField [[("center", DynVal.str "MSK")]] "center" =
      .str "MSK" := by decide

example :
    getTextForDataField [[("center", DynVal.undefined)]] "center" =
      .undefined := by decide

/-- The `MutationTableColumnType` enumeration (MutationTable.tsx lines
105-142), in source order. -/
inductive MutationTableColumnType where
  | STUDY
  | SAMPLE_ID
  | TUMORS
  | GENE
  | PROTEIN_CHANGE
  | CHROMOSOME
  | START_POS
  | END_POS
  | REF_ALLELE
  | VAR_ALLELE
  | MUTATION_STATUS
  | VALIDATION_STATUS
  | MUTATION_TYPE
  | CLONAL
  | CANCER_CELL_FRACTION
  | MUTANT_COPIES
  | CENTER
  | TUMOR_ALLELE_FREQ
  | NORMAL_ALLELE_FREQ
  | FUNCTIONAL_IMPACT
  | ANNOTATION
  | COSMIC
  | COPY_NUM
  | MRNA_EXPR
  | COHORT
  | REF_READS_N
  | VAR_READS_N
  | REF_READS
  | VAR_READS
  | CANCER_TYPE
  | NUM_MUTATIONS
  | EXON
  | HGVSC
  | GNOMAD
  | CLINVAR
  | DBSNP
deriving DecidableEq, Repr

/-- A column definition: `Column<Mutation[]> & {order?, shouldExclude?}`
(line 144).  A callback that the source object literal omits is `none`.
All four data callbacks take the row-group `List Mutation` and run in the
`Except JSErr` error monad; `shouldExclude` is the boolean the source
thunk `() => ...` evaluates to. -/
structure MutationTableColumn where
  name : String
  render : List Mutation → Except JSErr JSX
  headerRender : Option (String → JSX) := none
  download : Option (List Mutation → Except JSErr JSVal) := none
  sortBy : Option (List Mutation → Except JSErr JSVal) := none
  filter : Option (List Mutation → String → String → Except JSErr Bool) := none
  tooltip : Option JSX := none
  visible : Option Bool := none
  align : Option String := none
  defaultSortDirection : Option String := none
  order : Option Int := none
  shouldExclude : Option Bool := none

/-- The slice of `IMutationTableProps` (lines 59-103) that
`generateColumns`, `orderedColumns` and `columns` read.  Caches, lookup
tables and external data wrappers are opaque to this component: only
their presence or absence matters here, so each is `Option Unit`. -/
structure IMutationTableProps where
  studyIdToStudy : Option Unit := none
  uniqueSampleKeyToTumorType : Option Unit := none
  molecularProfileIdToMolecularProfile : Option Unit := none
  discreteCNACache : Option Unit := none
  oncoKbEvidenceCache : Option Unit := none
  oncoKbCancerGenes : Option Unit := none
  mrnaExprRankCache : Option Unit := none
  variantCountCache : Option Unit := none
  pubMedCache : Option Unit := none
  mutationCountCache : Option Unit := none
  genomeNexusCache : Option Unit := none
  genomeNexusMyVariantInfoCache : Option Unit := none
  mutSigData : Option Unit := none
  enableOncoKb : Option Bool := none
  enableMyCancerGenome : Option Bool := none
  enableHotspot : Option Bool := none
  enableCivic : Option Bool := none
  enableFunctionalImpact : Option Bool := none
  myCancerGenomeData : Option Unit := none
  hotspotData : Option Unit := none
  cosmicData : Option Unit := none
  oncoKbData : Option Unit := none
  civicGenes : Option Unit := none
  civicVariants : Option Unit := none
  userEmailAddress : Option String := none
  sampleIdToClinicalDataMap : Option Unit := none
  columns : Option (List MutationTableColumnType) := none

/-- The argument object built inline for
`AnnotationColumnFormatter.renderFunction` (lines 502-517). -/
structure AnnotationRenderProps where
  hotspotData : Option Unit
  myCancerGenomeData : Option Unit
  oncoKbData : Option Unit
  oncoKbEvidenceCache : Option Unit
  oncoKbCancerGenes : Option Unit
  pubMedCache : Option Unit
  civicGenes : Option Unit
  civicVariants : Option Unit
  enableCivic : Option Bool
  enableOncoKb : Option Bool
  enableMyCancerGenome : Option Bool
  enableHotspot : Option Bool
  userEmailAddress : Option String
  studyIdToStudy : Option Unit

/-- The external column-formatter modules (`StudyColumnFormatter`,
`SampleColumnFormatter`, ..., `DbsnpColumnFormatter`).  They live outside
this repository slice, so each function they export that
`MutationTable.tsx` calls is an abstract parameter here, typed after the
call site: the row-group, then the other arguments the source passes
(`Option Unit` for a possibly-absent cache or lookup table, `Unit` for
one the source has already checked present, `List DynVal` for a computed
array argument such as `[d[0].sampleId]`, `String` for a field name or
filter string).  All are total: whether an external module can itself
throw is outside this component's scope. -/
structure Formatters where
  studyRenderFunction : List Mutation → Option Unit → Option Unit → JSX
  studyGetTextValue : List Mutation → Option Unit → Option Unit → JSVal
  studyFilter : List Mutation → String → Option Unit → Option Unit → Bool
  sampleRenderFunction : List Mutation → Option Unit → JSX
  sampleGetTextValue : List Mutation → JSVal
  tumorAlleleFreqRenderFunction : List Mutation → JSX
  tumorAlleleFreqGetTextValue : List Mutation → JSVal
  tumorAlleleFreqGetSortValue : List Mutation → JSVal
  normalAlleleFreqRenderFunction : List Mutation → JSX
  normalAlleleFreqGetTextValue : List Mutation → JSVal
  normalAlleleFreqGetSortValue : List Mutation → JSVal
  mrnaExprRenderFunction : List Mutation → Unit → JSX
  cohortRenderFunction : List Mutation → Option Unit → Unit → JSX
  cohortGetSortValue : List Mutation → Unit → JSVal
  discreteCNARenderFunction :
    List Mutation → Unit → Unit → Option Unit → List DynVal → JSX
  discreteCNAGetSortValue :
    List Mutation → Unit → Unit → Option Unit → List DynVal → JSVal
  discreteCNAGetTextValue : List Mutation → Unit → Unit → JSVal
  discreteCNAFilter :
    List Mutation → Unit → Unit → Option Unit → List DynVal → String → Bool
  discreteCNAIsVisible : Option Unit → Bool
  alleleCountRenderFunction : List Mutation → List DynVal → String → JSX
  alleleCountGetTextValue : List Mutation → List DynVal → String → JSVal
  geneRenderFunction : List Mutation → JSX
  geneGetTextValue : List Mutation → String
  geneGetSortValue : List Mutation → JSVal
  chromosomeGetData : List Mutation → DynVal
  chromosomeGetSortValue : List Mutation → JSVal
  proteinChangeRenderWithMutationStatus : List Mutation → JSX
  proteinChangeGetTextValue : List Mutation → JSVal
  proteinChangeGetSortValue : List Mutation → JSVal
  proteinChangeGetFilterValue : List Mutation → String → String → Bool
  mutationTypeRenderFunction : List Mutation → JSX
  mutationTypeGetTextValue : List Mutation → JSVal
  mutationTypeGetDisplayValue : List Mutation → String
  mutationStatusRenderFunction : List Mutation → JSX
  mutationStatusDownload : List Mutation → JSVal
  mutationStatusSortValue : List Mutation → JSVal
  validationStatusRenderFunction : List Mutation → JSX
  validationStatusDownload : List Mutation → JSVal
  validationStatusSortValue : List Mutation → JSVal
  clonalRenderFunction : List Mutation → List DynVal → JSX
  clonalGetClonalValue : List Mutation → JSVal
  cancerCellFractionRenderFunction : List Mutation → JSX
  cancerCellFractionGetValue : List Mutation → JSVal
  mutantCopiesRenderFunction :
    List Mutation → Option Unit → List DynVal → JSX
  mutantCopiesGetDisplayValueAsString :
    List Mutation → Option Unit → List DynVal → JSVal
  functionalImpactRenderFunction : List Mutation → Unit → JSX
  functionalImpactDownload : List Mutation → Option Unit → JSVal
  functionalImpactHeaderRender : String → JSX
  cosmicRenderFunction : List Mutation → Option Unit → JSX
  cosmicGetSortValue : List Mutation → Option Unit → JSVal
  cosmicGetDownloadValue : List Mutation → Option Unit → JSVal
  annotationRenderFunction : List Mutation → AnnotationRenderProps → JSX
  annotationDownload :
    List Mutation → Option Unit → Option Unit → Option Unit → Option Unit →
      Option Unit → Option Unit → JSVal
  annotationSortValue :
    List Mutation → Option Unit → Option Unit → Option Unit → Option Unit →
      Option Unit → Option Unit → JSVal
  cancerTypeRender : List Mutation → Option Unit → JSX
  cancerTypeDownload : List Mutation → Option Unit → JSVal
  cancerTypeSortBy : List Mutation → Option Unit → JSVal
  cancerTypeFilter : List Mutation → String → Option Unit → Bool
  mutationCountRenderFunction : List Mutation → JSX
  mutationCountSortBy : List Mutation → Option Unit → JSVal
  mutationCountDownload : List Mutation → Option Unit → JSVal
  exonRenderFunction : List Mutation → Unit → JSX
  exonDownload : List Mutation → Option Unit → JSVal
  exonGetSortValue : List Mutation → Option Unit → JSVal
  hgvscRenderFunction : List Mutation → Unit → JSX
  hgvscDownload : List Mutation → Option Unit → JSVal
  hgvscGetSortValue : List Mutation → Option Unit → JSVal
  gnomadRenderFunction : List Mutation → Option Unit → JSX
  gnomadGetSortValue : List Mutation → Option Unit → JSVal
  gnomadDownload : List Mutation → Option Unit → JSVal
  clinVarRenderFunction : List Mutation → Option Unit → JSX
  clinVarGetSortValue : List Mutation → Option Unit → JSVal
  clinVarDownload : List Mutation → Option Unit → JSVal
  dbsnpRenderFunction : List Mutation → Option Unit → JSX
  dbsnpGetSortValue : List Mutation → Option Unit → JSVal
  dbsnpDownload : List Mutation → Option Unit → JSVal

/-- `d[0].sampleId`: on a non-empty row-group the first record's
`sampleId` property (possibly `undefined`); on the empty row-group
`d[0]` is `undefined` and the property read throws a `TypeError`. -/
def headSampleId (d : List Mutation) : Except JSErr DynVal :=
  match d with
  | [] => .error .typeErr
  | m :: _ => .ok (m.get "sampleId")

/-- JavaScript truthiness of an optional boolean prop: truthy exactly
when the prop is present and `true`. -/
def truthyOptBool (o : Option Bool) : Bool :=
  match o with
  | some b => b
  | none => false

/-- `generateColumns` (MutationTable.tsx lines 202-620) as the table it
leaves in `this._columns`: for each enum key the column definition the
method assigns to it, `none` for a key it never assigns (the method
starts from the freshly reset empty object `{}`).  `F` carries the
external formatter modules and `p` the component's props; each arm is the
source's object literal for that key, in source order. -/
def generateColumns (F : Formatters) (p : IMutationTableProps) :
    MutationTableColumnType → Option MutationTableColumn
  | .STUDY => some {
      name := "Study"
      render := fun d => .ok (F.studyRenderFunction d
        p.molecularProfileIdToMolecularProfile p.studyIdToStudy)
      download := some (fun d => .ok (F.studyGetTextValue d
        p.molecularProfileIdToMolecularProfile p.studyIdToStudy))
      sortBy := some (fun d => .ok (F.studyGetTextValue d
        p.molecularProfileIdToMolecularProfile p.studyIdToStudy))
      filter := some (fun d _fs fsu => .ok (F.studyFilter d fsu
        p.molecularProfileIdToMolecularProfile p.studyIdToStudy))
      visible := some false }
  | .SAMPLE_ID => some {
      name := "Sample ID"
      render := fun d => .ok (F.sampleRenderFunction d
        p.molecularProfileIdToMolecularProfile)
      download := some (fun d => .ok (F.sampleGetTextValue d))
      sortBy := some (fun d => .ok (F.sampleGetTextValue d))
      filter := some (fun d _fs fsu => defaultFilter d "sampleId" fsu)
      visible := some true }
  | .TUMOR_ALLELE_FREQ => some {
      name := "Allele Freq (T)"
      render := fun d => .ok (F.tumorAlleleFreqRenderFunction d)
      headerRender := some (fun nm => .textSpan nm)
      download := some (fun d => .ok (F.tumorAlleleFreqGetTextValue d))
      sortBy := some (fun d => .ok (F.tumorAlleleFreqGetSortValue d))
      tooltip := some (.textSpan "Variant allele frequency in the tumor sample")
      visible := some true }
  | .NORMAL_ALLELE_FREQ => some {
      name := "Allele Freq (N)"
      render := fun d => .ok (F.normalAlleleFreqRenderFunction d)
      headerRender := some (fun nm => .textSpan nm)
      download := some (fun d => .ok (F.normalAlleleFreqGetTextValue d))
      sortBy := some (fun d => .ok (F.normalAlleleFreqGetSortValue d))
      tooltip := some (.textSpan "Variant allele frequency in the normal sample")
      visible := some false }
  | .MRNA_EXPR => some {
      name := "mRNA Expr."
      render := fun d => .ok (match p.mrnaExprRankCache with
        | some cache => F.mrnaExprRenderFunction d cache
        | none => .emptySpan) }
  | .COHORT => some {
      name := "Cohort"
      render := fun d => .ok (match p.variantCountCache with
        | some cache => F.cohortRenderFunction d p.mutSigData cache
        | none => .emptySpan)
      sortBy := some (fun d => .ok (match p.variantCountCache with
        | some cache => F.cohortGetSortValue d cache
        | none => .prim (.num 0)))
      tooltip := some (.textSpan "Mutation frequency in cohort")
      defaultSortDirection := some "desc" }
  | .COPY_NUM => some {
      name := "Copy #"
      render := fun d =>
        match p.discreteCNACache, p.molecularProfileIdToMolecularProfile with
        | some cache, some profiles =>
          (headSampleId d).map (fun sid =>
            F.discreteCNARenderFunction d profiles cache
              p.sampleIdToClinicalDataMap [sid])
        | _, _ => .ok .emptySpan
      sortBy := some (fun d =>
        match p.discreteCNACache, p.molecularProfileIdToMolecularProfile with
        | some cache, some profiles =>
          (headSampleId d).map (fun sid =>
            F.discreteCNAGetSortValue d profiles cache
              p.sampleIdToClinicalDataMap [sid])
        | _, _ => .ok (.prim (.str "")))
      download := some (fun d =>
        match p.discreteCNACache, p.molecularProfileIdToMolecularProfile with
        | some cache, some profiles =>
          .ok (F.discreteCNAGetTextValue d profiles cache)
        | _, _ => .ok (.prim (.str "")))
      filter := some (fun d fs _fsu =>
        match p.discreteCNACache, p.molecularProfileIdToMolecularProfile with
        | some cache, some profiles =>
          (headSampleId d).map (fun sid =>
            F.discreteCNAFilter d profiles cache
              p.sampleIdToClinicalDataMap [sid] fs)
        | _, _ => .ok false)
      visible := some (F.discreteCNAIsVisible p.discreteCNACache) }
  | .REF_READS_N => some {
      name := "Ref Reads (Normal)"
      render := fun d => (headSampleId d).map (fun sid =>
        F.alleleCountRenderFunction d [sid] "normalRefCount")
      download := some (fun d => (headSampleId d).map (fun sid =>
        F.alleleCountGetTextValue d [sid] "normalRefCount"))
      sortBy := some (fun d =>
        .ok (.arr (d.map (fun m => m.get "normalRefCount"))))
      visible := some false
      align := some "right" }
  | .VAR_READS_N => some {
      name := "Variant Reads (Normal)"
      render := fun d => (headSampleId d).map (fun sid =>
        F.alleleCountRenderFunction d [sid] "normalAltCount")
      download := some (fun d => (headSampleId d).map (fun sid =>
        F.alleleCountGetTextValue d [sid] "normalAltCount"))
      sortBy := some (fun d =>
        .ok (.arr (d.map (fun m => m.get "normalAltCount"))))
      visible := some false
      align := some "right" }
  | .REF_READS => some {
      name := "Ref Reads"
      render := fun d => (headSampleId d).map (fun sid =>
        F.alleleCountRenderFunction d [sid] "tumorRefCount")
      download := some (fun d => (headSampleId d).map (fun sid =>
        F.alleleCountGetTextValue d [sid] "tumorRefCount"))
      sortBy := some (fun d =>
        .ok (.arr (d.map (fun m => m.get "tumorRefCount"))))
      visible := some false
      align := some "right" }
  | .VAR_READS => some {
      name := "Variant Reads"
      render := fun d => (headSampleId d).map (fun sid =>
        F.alleleCountRenderFunction d [sid] "tumorAltCount")
      download := some (fun d => (headSampleId d).map (fun sid =>
        F.alleleCountGetTextValue d [sid] "tumorAltCount"))
      sortBy := some (fun d =>
        .ok (.arr (d.map (fun m => m.get "tumorAltCount"))))
      visible := some false
      align := some "right" }
  | .START_POS => some {
      name := "Start Pos"
      render := fun d => .ok (getDivForDataField d "startPosition" true)
      download := some (fun d =>
        .ok (.prim (getTextForDataField d "startPosition")))
      sortBy := some (fun d =>
        .ok (.arr (d.map (fun m => m.get "startPosition"))))
      visible := some false
      align := some "right" }
  | .END_POS => some {
      name := "End Pos"
      render := fun d => .ok (getDivForDataField d "endPosition" true)
      download := some (fun d =>
        .ok (.prim (getTextForDataField d "endPosition")))
      sortBy := some (fun d =>
        .ok (.arr (d.map (fun m => m.get "endPosition"))))
      visible := some false
      align := some "right" }
  | .REF_ALLELE => some {
      name := "Ref"
      render := fun d => .ok (getDivForDataField d "referenceAllele" false)
      download := some (fun d =>
        .ok (.prim (getTextForDataField d "referenceAllele")))
      sortBy := some (fun d =>
        .ok (.arr (d.map (fun m => m.get "referenceAllele"))))
      visible := some false }
  | .VAR_ALLELE => some {
      name := "Var"
      render := fun d => .ok (getDivForDataField d "variantAllele" false)
      download := some (fun d =>
        .ok (.prim (getTextForDataField d "variantAllele")))
      sortBy := some (fun d =>
        .ok (.arr (d.map (fun m => m.get "variantAllele"))))
      visible := some false }
  | .MUTATION_STATUS => some {
      name := "MS"
      tooltip := some (.textSpan "Mutation Status")
      render := fun d => .ok (F.mutationStatusRenderFunction d)
      download := some (fun d => .ok (F.mutationStatusDownload d))
      sortBy := some (fun d => .ok (F.mutationStatusSortValue d))
      filter := some (fun d _fs fsu => defaultFilter d "mutationStatus" fsu)
      visible := some false }
  | .VALIDATION_STATUS => some {
      name := "VS"
      tooltip := some (.textSpan "Validation Status")
      render := fun d => .ok (F.validationStatusRenderFunction d)
      download := some (fun d => .ok (F.validationStatusDownload d))
      sortBy := some (fun d => .ok (F.validationStatusSortValue d))
      filter := some (fun d _fs fsu => defaultFilter d "validationStatus" fsu)
      visible := some false }
  | .CENTER => some {
      name := "Center"
      render := fun d => .ok (getDivForDataField d "center" false)
      download := some (fun d => .ok (.prim (getTextForDataField d "center")))
      sortBy := some (fun d => .ok (.arr (d.map (fun m => m.get "center"))))
      filter := some (fun d _fs fsu => defaultFilter d "center" fsu)
      visible := some false }
  | .GENE => some {
      name := "Gene"
      render := fun d => .ok (F.geneRenderFunction d)
      download := some (fun d => .ok (.prim (.str (F.geneGetTextValue d))))
      sortBy := some (fun d => .ok (F.geneGetSortValue d))
      filter := some (fun d _fs fsu =>
        .ok (jsContainsSubstr (jsToUpper (F.geneGetTextValue d)) fsu)) }
  | .CHROMOSOME => some {
      name := "Chromosome"
      render := fun d => .ok (.divNode true (F.chromosomeGetData d))
      download := some (fun d => .ok (.prim
        (let v := F.chromosomeGetData d
         if truthy v then v else .str "")))
      sortBy := some (fun d => .ok (F.chromosomeGetSortValue d))
      filter := some (fun d _fs fsu =>
        .ok (jsContainsSubstr (jsToUpper (dynToString (F.chromosomeGetData d))) fsu))
      visible := some false
      align := some "right" }
  | .PROTEIN_CHANGE => some {
      name := "Protein Change"
      render := fun d => .ok (F.proteinChangeRenderWithMutationStatus d)
      download := some (fun d => .ok (F.proteinChangeGetTextValue d))
      sortBy := some (fun d => .ok (F.proteinChangeGetSortValue d))
      filter := some (fun d fs fsu =>
        .ok (F.proteinChangeGetFilterValue d fs fsu)) }
  | .MUTATION_TYPE => some {
      name := "Mutation Type"
      render := fun d => .ok (F.mutationTypeRenderFunction d)
      download := some (fun d => .ok (F.mutationTypeGetTextValue d))
      sortBy := some (fun d => .ok (.prim (.str (F.mutationTypeGetDisplayValue d))))
      filter := some (fun d _fs fsu =>
        .ok (jsContainsSubstr (jsToUpper (F.mutationTypeGetDisplayValue d)) fsu)) }
  | .CLONAL => some {
      name := "Clonal"
      tooltip := some (.textSpan "FACETS Clonal")
      render := fun d => (headSampleId d).map (fun sid =>
        F.clonalRenderFunction d [sid])
      download := some (fun d => .ok (F.clonalGetClonalValue d))
      sortBy := some (fun d =>
        .ok (.arr (d.map (fun m => m.get "ccfMCopiesUpper")))) }
  | .CANCER_CELL_FRACTION => some {
      name := "CCF"
      tooltip := some (.textSpan "FACETS Cancer Cell Fraction")
      render := fun d => .ok (F.cancerCellFractionRenderFunction d)
      download := some (fun d => .ok (F.cancerCellFractionGetValue d))
      sortBy := some (fun d =>
        .ok (.arr (d.map (fun m => m.get "ccfMCopies")))) }
  | .MUTANT_COPIES => some {
      name := "Mutant Copies"
      tooltip := some (.textSpan "FACETS Best Guess for Mutant Copies / Total Copies")
      render := fun d => (headSampleId d).map (fun sid =>
        F.mutantCopiesRenderFunction d p.sampleIdToClinicalDataMap [sid])
      download := some (fun d => (headSampleId d).map (fun sid =>
        F.mutantCopiesGetDisplayValueAsString d p.sampleIdToClinicalDataMap [sid]))
      sortBy := some (fun d => (headSampleId d).map (fun sid =>
        F.mutantCopiesGetDisplayValueAsString d p.sampleIdToClinicalDataMap [sid])) }
  | .FUNCTIONAL_IMPACT => some {
      name := "Functional Impact"
      render := fun d => .ok (match p.genomeNexusCache with
        | some cache => F.functionalImpactRenderFunction d cache
        | none => .emptySpan)
      download := some (fun d =>
        .ok (F.functionalImpactDownload d p.genomeNexusCache))
      headerRender := some F.functionalImpactHeaderRender
      visible := some false
      shouldExclude := some (!(truthyOptBool p.enableFunctionalImpact)) }
  | .COSMIC => some {
      name := "COSMIC"
      render := fun d => .ok (F.cosmicRenderFunction d p.cosmicData)
      sortBy := some (fun d => .ok (F.cosmicGetSortValue d p.cosmicData))
      download := some (fun d => .ok (F.cosmicGetDownloadValue d p.cosmicData))
      tooltip := some (.textSpan "COSMIC occurrences")
      defaultSortDirection := some "desc"
      align := some "right" }
  | .ANNOTATION => some {
      name := "Annotation"
      render := fun d => .ok (F.annotationRenderFunction d {
        hotspotData := p.hotspotData
        myCancerGenomeData := p.myCancerGenomeData
        oncoKbData := p.oncoKbData
        oncoKbEvidenceCache := p.oncoKbEvidenceCache
        oncoKbCancerGenes := p.oncoKbCancerGenes
        pubMedCache := p.pubMedCache
        civicGenes := p.civicGenes
        civicVariants := p.civicVariants
        enableCivic := p.enableCivic
        enableOncoKb := p.enableOncoKb
        enableMyCancerGenome := p.enableMyCancerGenome
        enableHotspot := p.enableHotspot
        userEmailAddress := p.userEmailAddress
        studyIdToStudy := p.studyIdToStudy })
      download := some (fun d => .ok (F.annotationDownload d
        p.oncoKbCancerGenes p.hotspotData p.myCancerGenomeData
        p.oncoKbData p.civicGenes p.civicVariants))
      sortBy := some (fun d => .ok (F.annotationSortValue d
        p.oncoKbCancerGenes p.hotspotData p.myCancerGenomeData
        p.oncoKbData p.civicGenes p.civicVariants)) }
  | .CANCER_TYPE => some {
      name := "Cancer Type"
      render := fun d => .ok (F.cancerTypeRender d p.uniqueSampleKeyToTumorType)
      download := some (fun d =>
        .ok (F.cancerTypeDownload d p.uniqueSampleKeyToTumorType))
      sortBy := some (fun d =>
        .ok (F.cancerTypeSortBy d p.uniqueSampleKeyToTumorType))
      filter := some (fun d _fs fsu =>
        .ok (F.cancerTypeFilter d fsu p.uniqueSampleKeyToTumorType))
      tooltip := some (.textSpan "Cancer Type") }
  | .NUM_MUTATIONS => some {
      name := "# Mut in Sample"
      render := fun d => .ok (F.mutationCountRenderFunction d)
      headerRender := some (fun nm => .textSpan nm)
      sortBy := some (fun d =>
        .ok (F.mutationCountSortBy d p.mutationCountCache))
      download := some (fun d =>
        .ok (F.mutationCountDownload d p.mutationCountCache))
      tooltip := some (.textSpan
        "Total number of nonsynonymous mutations in the sample")
      align := some "right" }
  | .EXON => some {
      name := "Exon"
      render := fun d => .ok (match p.genomeNexusCache with
        | some cache => F.exonRenderFunction d cache
        | none => .emptySpan)
      download := some (fun d => .ok (F.exonDownload d p.genomeNexusCache))
      sortBy := some (fun d => .ok (F.exonGetSortValue d p.genomeNexusCache))
      visible := some false
      align := some "right" }
  | .HGVSC => some {
      name := "HGVSc"
      render := fun d => .ok (match p.genomeNexusCache with
        | some cache => F.hgvscRenderFunction d cache
        | none => .emptySpan)
      download := some (fun d => .ok (F.hgvscDownload d p.genomeNexusCache))
      sortBy := some (fun d => .ok (F.hgvscGetSortValue d p.genomeNexusCache))
      visible := some false
      align := some "right" }
  | .GNOMAD => some {
      name := "gnomAD"
      render := fun d =>
        .ok (F.gnomadRenderFunction d p.genomeNexusMyVariantInfoCache)
      sortBy := some (fun d =>
        .ok (F.gnomadGetSortValue d p.genomeNexusMyVariantInfoCache))
      download := some (fun d =>
        .ok (F.gnomadDownload d p.genomeNexusMyVariantInfoCache))
      tooltip := some (.textSpan "gnomAD population allele frequencies")
      defaultSortDirection := some "desc"
      visible := some false
      align := some "right" }
  | .CLINVAR => some {
      name := "ClinVar ID"
      render := fun d =>
        .ok (F.clinVarRenderFunction d p.genomeNexusMyVariantInfoCache)
      sortBy := some (fun d =>
        .ok (F.clinVarGetSortValue d p.genomeNexusMyVariantInfoCache))
      download := some (fun d =>
        .ok (F.clinVarDownload d p.genomeNexusMyVariantInfoCache))
      tooltip := some (.textSpan
        "ClinVar aggregates information about genomic variation and its relationship to human health")
      defaultSortDirection := some "desc"
      visible := some false
      align := some "right" }
  | .DBSNP => some {
      name := "dbSNP"
      render := fun d =>
        .ok (F.dbsnpRenderFunction d p.genomeNexusMyVariantInfoCache)
      sortBy := some (fun d =>
        .ok (F.dbsnpGetSortValue d p.genomeNexusMyVariantInfoCache))
      download := some (fun d =>
        .ok (F.dbsnpDownload d p.genomeNexusMyVariantInfoCache))
      tooltip := some (.textSpan
        "The Single Nucleotide Polymorphism Database (dbSNP) is a free public archive for genetic variation within and across different species")
      defaultSortDirection := some "desc"
      visible := some false
      align := some "right" }
  | .TUMORS => none

/-- The method-level view of `generateColumns`: it receives the previous
`this._columns` state and replaces it wholesale, because its first
statement is the reset `this._columns = {}` (line 203) and every later
statement assigns a fresh entry computed from props alone. -/
def generateColumnsMethod (F : Formatters) (p : IMutationTableProps)
    (_oldColumns : MutationTableColumnType → Option MutationTableColumn) :
    MutationTableColumnType → Option MutationTableColumn :=
  generateColumns F p

/-- The sort key computed inside `orderedColumns` (lines 625-633):
`order` starts at `-1` and is overwritten with `this._columns[c].order`
exactly when the definition exists and its `order` value is truthy (a
JavaScript number is truthy when it is neither `0` nor `NaN`). -/
def colSortKey (tbl : MutationTableColumnType → Option MutationTableColumn)
    (c : MutationTableColumnType) : Int :=
  match tbl c with
  | some col =>
    match col.order with
    | some o => if o == 0 then -1 else o
    | none => -1
  | none => -1

/-- `orderedColumns` (lines 622-634): `props.columns` (the empty list
when the prop is absent) sorted ascending by `colSortKey` over the
component's `_columns` table, which `generateColumns` populated in the
constructor.  Lodash `_.sortBy` is a stable ascending sort by key,
modelled by `List.mergeSort`. -/
def orderedColumns (F : Formatters) (p : IMutationTableProps) :
    List MutationTableColumnType :=
  let cols := p.columns.getD []
  cols.mergeSort (fun a b =>
    colSortKey (generateColumns F p) a ≤ colSortKey (generateColumns F p) b)

/-- The push condition of the `columns` getter (line 641-642):
`column && (!column.shouldExclude || !column.shouldExclude())`, split
into its `shouldExclude` half. -/
def keepCol (col : MutationTableColumn) : Bool :=
  match col.shouldExclude with
  | none => true
  | some b => !b

/-- Whether a column type survives the `columns` getter: its definition
exists in the table and `keepCol` holds of it. -/
def keepType (tbl : MutationTableColumnType → Option MutationTableColumn)
    (t : MutationTableColumnType) : Bool :=
  match tbl t with
  | some col => keepCol col
  | none => false

/-- The `columns` getter (lines 636-648): a `reduce` over
`orderedColumns` that pushes each type's definition when it exists and
its `shouldExclude` is absent or returns `false`. -/
def columnsGetter (F : Formatters) (p : IMutationTableProps) :
    List MutationTableColumn :=
  (orderedColumns F p).foldl
    (fun columns next =>
      match generateColumns F p next with
      | some column => if keepCol column then columns ++ [column] else columns
      | none => columns)
    []

/-- A concrete formatter pack for evaluating witnesses: every external
formatter function returns a fixed inert value. -/
def F0 : Formatters where
  studyRenderFunction := fun _ _ _ => .emptySpan
  studyGetTextValue := fun _ _ _ => .prim (.str "")
  studyFilter := fun _ _ _ _ => false
  sampleRenderFunction := fun _ _ => .emptySpan
  sampleGetTextValue := fun _ => .prim (.str "")
  tumorAlleleFreqRenderFunction := fun _ => .emptySpan
  tumorAlleleFreqGetTextValue := fun _ => .prim (.str "")
  tumorAlleleFreqGetSortValue := fun _ => .prim (.num 0)
  normalAlleleFreqRenderFunction := fun _ => .emptySpan
  normalAlleleFreqGetTextValue := fun _ => .prim (.str "")
  normalAlleleFreqGetSortValue := fun _ => .prim (.num 0)
  mrnaExprRenderFunction := fun _ _ => .fmt "MrnaExprColumnFormatter.renderFunction" []
  cohortRenderFunction := fun _ _ _ => .fmt "CohortColumnFormatter.renderFunction" []
  cohortGetSortValue := fun _ _ => .prim (.num 0)
  discreteCNARenderFunction := fun _ _ _ _ _ => .fmt "DiscreteCNAColumnFormatter.renderFunction" []
  discreteCNAGetSortValue := fun _ _ _ _ _ => .prim (.str "")
  discreteCNAGetTextValue := fun _ _ _ => .prim (.str "")
  discreteCNAFilter := fun _ _ _ _ _ _ => false
  discreteCNAIsVisible := fun _ => false
  alleleCountRenderFunction := fun _ _ _ => .emptySpan
  alleleCountGetTextValue := fun _ _ _ => .prim (.str "")
  geneRenderFunction := fun _ => .emptySpan
  geneGetTextValue := fun _ => ""
  geneGetSortValue := fun _ => .prim (.str "")
  chromosomeGetData := fun _ => .nullv
  chromosomeGetSortValue := fun _ => .prim (.num 0)
  proteinChangeRenderWithMutationStatus := fun _ => .emptySpan
  proteinChangeGetTextValue := fun _ => .prim (.str "")
  proteinChangeGetSortValue := fun _ => .prim (.str "")
  proteinChangeGetFilterValue := fun _ _ _ => false
  mutationTypeRenderFunction := fun _ => .emptySpan
  mutationTypeGetTextValue := fun _ => .prim (.str "")
  mutationTypeGetDisplayValue := fun _ => ""
  mutationStatusRenderFunction := fun _ => .emptySpan
  mutationStatusDownload := fun _ => .prim (.str "")
  mutationStatusSortValue := fun _ => .prim (.str "")
  validationStatusRenderFunction := fun _ => .emptySpan
  validationStatusDownload := fun _ => .prim (.str "")
  validationStatusSortValue := fun _ => .prim (.str "")
  clonalRenderFunction := fun _ _ => .fmt "ClonalColumnFormatter.renderFunction" []
  clonalGetClonalValue := fun _ => .prim (.str "")
  cancerCellFractionRenderFunction := fun _ => .emptySpan
  cancerCellFractionGetValue := fun _ => .prim (.str "")
  mutantCopiesRenderFunction := fun _ _ _ => .emptySpan
  mutantCopiesGetDisplayValueAsString := fun _ _ _ => .prim (.str "")
  functionalImpactRenderFunction := fun _ _ => .fmt "FunctionalImpactColumnFormatter.renderFunction" []
  functionalImpactDownload := fun _ _ => .prim (.str "")
  functionalImpactHeaderRender := fun nm => .textSpan nm
  cosmicRenderFunction := fun _ _ => .emptySpan
  cosmicGetSortValue := fun _ _ => .prim (.num 0)
  cosmicGetDownloadValue := fun _ _ => .prim (.str "")
  annotationRenderFunction := fun _ _ => .emptySpan
  annotationDownload := fun _ _ _ _ _ _ _ => .prim (.str "")
  annotationSortValue := fun _ _ _ _ _ _ _ => .prim (.num 0)
  cancerTypeRender := fun _ _ => .emptySpan
  cancerTypeDownload := fun _ _ => .prim (.str "")
  cancerTypeSortBy := fun _ _ => .prim (.str "")
  cancerTypeFilter := fun _ _ _ => false
  mutationCountRenderFunction := fun _ => .emptySpan
  mutationCountSortBy := fun _ _ => .prim (.num 0)
  mutationCountDownload := fun _ _ => .prim (.str "")
  exonRenderFunction := fun _ _ => .fmt "ExonColumnFormatter.renderFunction" []
  exonDownload := fun _ _ => .prim (.str "")
  exonGetSortValue := fun _ _ => .prim (.num 0)
  hgvscRenderFunction := fun _ _ => .fmt "HgvscColumnFormatter.renderFunction" []
  hgvscDownload := fun _ _ => .prim (.str "")
  hgvscGetSortValue := fun _ _ => .prim (.str "")
  gnomadRenderFunction := fun _ _ => .emptySpan
  gnomadGetSortValue := fun _ _ => .prim (.num 0)
  gnomadDownload := fun _ _ => .prim (.str "")
  clinVarRenderFunction := fun _ _ => .emptySpan
  clinVarGetSortValue := fun _ _ => .prim (.str "")
  clinVarDownload := fun _ _ => .prim (.str "")
  dbsnpRenderFunction := fun _ _ => .emptySpan
  dbsnpGetSortValue := fun _ _ => .prim (.str "")
  dbsnpDownload := fun _ _ => .prim (.str "")

/-- A concrete props record with every optional prop absent. -/
def p0 : IMutationTableProps := {}

/-- A concrete one-field mutation record for witnesses. -/
def m0 : Mutation := [("sampleId", .str "TCGA-01")]

/-- The well-typedness a row must satisfy for `defaultFilter d f ...` not
to throw: the field `f` is either a string or falsy (the generated
TypeScript `Mutation` interface types the fields that `defaultFilter` is
applied to as `string`). -/
def strFieldOk (m : Mutation) (f : String) : Bool :=
  match m.get f with
  | .str _ => true
  | v => !(truthy v)

/-- A mutation record carrying well-typed values for the four fields the
generated columns pass to `defaultFilter`. -/
def mutWellTyped (m : Mutation) : Bool :=
  strFieldOk m "sampleId" && strFieldOk m "mutationStatus" &&
    strFieldOk m "validationStatus" && strFieldOk m "center"

/-- One row's contribution to `defaultFilter`: its field value is truthy
and, uppercased, contains the filter string. -/
def matchesFilter (m : Mutation) (f fsu : String) : Bool :=
  truthy (m.get f) &&
    (match m.get f with
     | .str s => jsContainsSubstr (jsToUpper s) fsu
     | _ => false)

theorem defaultFilterGo_eq (f fsu : String) (l : List Mutation) (acc : Bool)
    (h : ∀ m ∈ l, strFieldOk m f = true) :
    defaultFilterGo f fsu acc l =
      .ok (acc || l.any (fun m => matchesFilter m f fsu)) := by
  induction l generalizing acc with
  | nil => simp [defaultFilterGo]
  | cons m rest ih =>
    have hm : strFieldOk m f = true := h m (by simp)
    have hrest : ∀ x ∈ rest, strFieldOk x f = true := by
      intro x hx
      exact h x (by simp [hx])
    simp only [defaultFilterGo, List.any_cons]
    unfold strFieldOk at hm
    cases hv : Mutation.get m f with
    | str s =>
      by_cases hs : s = ""
      · subst hs
        simp [matchesFilter, hv, truthy, ih _ hrest]
      · have hb : (s == "") = false := by simp [hs]
        simp [matchesFilter, hv, truthy, hb, dynToUpper, ih _ hrest,
          Bool.or_assoc]
    | num n =>
      rw [hv] at hm
      have hmm : (!truthy (DynVal.num n)) = true := hm
      simp [matchesFilter, hv, ih _ hrest]
      intro htr
      rw [htr] at hmm
      simp at hmm
    | boolv b =>
      rw [hv] at hm
      have hmm : (!truthy (DynVal.boolv b)) = true := hm
      simp [matchesFilter, hv, ih _ hrest]
      intro htr
      rw [htr] at hmm
      simp at hmm
    | nullv =>
      simp [matchesFilter, hv, truthy, ih _ hrest]
    | undefined =>
      simp [matchesFilter, hv, truthy, ih _ hrest]

theorem defaultFilter_isOk (d : List Mutation) (f fsu : String)
    (h : ∀ m ∈ d, strFieldOk m f = true) :
    (defaultFilter d f fsu).isOk = true := by
  unfold defaultFilter
  split
  · rw [defaultFilterGo_eq f fsu d false h]
    rfl
  · rfl

theorem matchesFilter_iff (m : Mutation) (f fsu : String) :
    matchesFilter m f fsu = true ↔
      ∃ s, Mutation.get m f = .str s ∧ s ≠ "" ∧
        jsContainsSubstr (jsToUpper s) fsu = true := by
  unfold matchesFilter
  cases hv : Mutation.get m f <;> simp [hv, truthy]

@[simp]
theorem isOk_ok {α : Type} (v : α) :
    (Except.ok v : Except JSErr α).isOk = true := rfl

@[simp]
theorem isOk_map {α β : Type} (g : α → β) (e : Except JSErr α) :
    (e.map g).isOk = e.isOk := by
  cases e <;> rfl

@[simp]
theorem headSampleId_cons (m : Mutation) (rest : List Mutation) :
    headSampleId (m :: rest) = .ok (m.get "sampleId") := rfl

/-- All four data callbacks of a column definition evaluate without a
fatal error on the row-group `d` (a callback the definition omits is
vacuously fine). -/
def callbacksOk (col : MutationTableColumn) (d : List Mutation)
    (fs fsu : String) : Bool :=
  (col.render d).isOk &&
    (match col.download with
     | some g => (g d).isOk
     | none => true) &&
    (match col.sortBy with
     | some g => (g d).isOk
     | none => true) &&
    (match col.filter with
     | some g => (g d fs fsu).isOk
     | none => true)

theorem columnsFoldl_eq (F : Formatters) (p : IMutationTableProps)
    (l : List MutationTableColumnType) (acc : List MutationTableColumn) :
    l.foldl
      (fun columns next =>
        match generateColumns F p next with
        | some column => if keepCol column then columns ++ [column] else columns
        | none => columns)
      acc =
      acc ++ (l.filter (keepType (generateColumns F p))).filterMap
        (generateColumns F p) := by
  induction l generalizing acc with
  | nil => simp
  | cons a t ih =>
    cases htbl : generateColumns F p a with
    | none =>
      have hq : keepType (generateColumns F p) a = false := by
        simp [keepType, htbl]
      simp [List.foldl_cons, htbl, hq, ih]
    | some col =>
      have hq : keepType (generateColumns F p) a = keepCol col := by
        simp [keepType, htbl]
      by_cases hk : keepCol col
      · simp [List.foldl_cons, htbl, hq, hk, ih, List.filterMap_cons]
      · simp [List.foldl_cons, htbl, hq, hk, ih]

theorem columnsGetter_eq (F : Formatters) (p : IMutationTableProps) :
    columnsGetter F p =
      ((orderedColumns F p).filter (keepType (generateColumns F p))).filterMap
        (generateColumns F p) := by
  unfold columnsGetter
  rw [columnsFoldl_eq]
  rfl

/-- The render callback of the column installed for `t`, applied to `d`. -/
def colRenderAt (F : Formatters) (p : IMutationTableProps)
    (t : MutationTableColumnType) (d : List Mutation) :
    Option (Except JSErr JSX) :=
  (generateColumns F p t).map (fun col => col.render d)

/-- The download callback of the column installed for `t`, applied to
`d` (when the column and its download both exist). -/
def colDownloadAt (F : Formatters) (p : IMutationTableProps)
    (t : MutationTableColumnType) (d : List Mutation) :
    Option (Except JSErr JSVal) :=
  ((generateColumns F p t).bind (fun col => col.download)).map (fun g => g d)

/-- The sortBy callback of the column installed for `t`, applied to `d`. -/
def colSortByAt (F : Formatters) (p : IMutationTableProps)
    (t : MutationTableColumnType) (d : List Mutation) :
    Option (Except JSErr JSVal) :=
  ((generateColumns F p t).bind (fun col => col.sortBy)).map (fun g => g d)

/-- The filter callback of the column installed for `t`, applied to `d`
and the filter strings. -/
def colFilterAt (F : Formatters) (p : IMutationTableProps)
    (t : MutationTableColumnType) (d : List Mutation) (fs fsu : String) :
    Option (Except JSErr Bool) :=
  ((generateColumns F p t).bind (fun col => col.filter)).map
    (fun g => g d fs fsu)

/-- C1 counterexample: the enum value `TUMORS` is a `MutationTableColumnType`,
but `generateColumns` never assigns `this._columns[MutationTableColumnType.TUMORS]`,
so the column-configuration table is not defined on the whole enumeration:
at `TUMORS` it holds no definition. -/
theorem c1_counterexample_tumors :
    generateColumns F0 p0 MutationTableColumnType.TUMORS = none := rfl

/-- C1 (amended): for every formatter pack and every props record,
`generateColumns` installs a column definition (a record with a render
callback, and sort/filter/download callbacks where the source supplies
them) for every value of `MutationTableColumnType` except `TUMORS`, the
one enum value with no assignment in the method body. -/
theorem c1_defined_except_tumors (F : Formatters) (p : IMutationTableProps)
    (t : MutationTableColumnType)
    (h : t ≠ MutationTableColumnType.TUMORS) :
    (generateColumns F p t).isSome = true := by
  cases t <;> first | rfl | exact absurd rfl h

/-- C1 witness: `STUDY` is not `TUMORS`, and `generateColumns` installs a
definition for it. -/
theorem c1_witness :
    MutationTableColumnType.STUDY ≠ MutationTableColumnType.TUMORS ∧
      (generateColumns F0 p0 MutationTableColumnType.STUDY).isSome = true :=
  ⟨by decide, c1_defined_except_tumors F0 p0 MutationTableColumnType.STUDY
    (by decide)⟩

/-- C2: `getTextForDataField` returns the empty string when the row-group
is empty or its first record does not own the field, returns the first
record's value of the field otherwise, and `getDivForDataField` renders
exactly that text as the `<div>`'s contents. -/
theorem c2_getTextForDataField_spec (d : List Mutation) (f : String)
    (isInteger : Bool) :
    (d = [] → getTextForDataField d f = .str "") ∧
    (∀ m rest, d = m :: rest → Mutation.hasOwn m f = false →
      getTextForDataField d f = .str "") ∧
    (∀ m rest, d = m :: rest → Mutation.hasOwn m f = true →
      getTextForDataField d f = Mutation.get m f) ∧
    getDivForDataField d f isInteger =
      .divNode isInteger (getTextForDataField d f) := by
  refine ⟨?_, ?_, ?_, rfl⟩
  · rintro rfl
    rfl
  · rintro m rest rfl hm
    simp [getTextForDataField, hm]
  · rintro m rest rfl hm
    simp [getTextForDataField, hm]

/-- C2 witness: on the empty row-group the text is the empty string, and
on a one-row group owning `sampleId` it is that row's value. -/
theorem c2_witness :
    getTextForDataField ([] : List Mutation) "sampleId" = .str "" ∧
      getTextForDataField [m0] "sampleId" = Mutation.get m0 "sampleId" :=
  ⟨(c2_getTextForDataField_spec [] "sampleId" false).1 rfl,
   (c2_getTextForDataField_spec [m0] "sampleId" false).2.2.1 m0 [] rfl
     (by decide)⟩

/-- C8: `generateColumns` first resets `_columns` to the empty mapping
(line 203) and then installs entries computed from the props alone, so
the table it leaves behind is independent of the previous `_columns`
state, and calling the method twice leaves exactly the table one call
leaves. -/
theorem c8_generateColumns_deterministic (F : Formatters)
    (p : IMutationTableProps)
    (s1 s2 : MutationTableColumnType → Option MutationTableColumn) :
    generateColumnsMethod F p s1 = generateColumnsMethod F p s2 ∧
    generateColumnsMethod F p (generateColumnsMethod F p s1) =
      generateColumnsMethod F p s1 :=
  ⟨rfl, rfl⟩

/-- C9: every column definition installed by `generateColumns` has a
`visible` field that is either absent or exactly `true` or `false` (a
column is either visible or not).  The second half of the claim — that
the `sortBy`, `filter`, `render` and `download` callbacks all take the
same row-group shape `Mutation[]` — holds by construction in this
embedding: every callback field of `MutationTableColumn` has domain
`List Mutation`, mirroring `Column<Mutation[]>`. -/
theorem c9_visible_boolean (F : Formatters) (p : IMutationTableProps)
    (t : MutationTableColumnType) (v : Option Bool)
    (h : (generateColumns F p t).map (fun col => col.visible) = some v) :
    v = none ∨ v = some true ∨ v = some false := by
  rcases v with _ | b
  · exact Or.inl rfl
  · cases b
    · exact Or.inr (Or.inr rfl)
    · exact Or.inr (Or.inl rfl)

/-- C9 witness: the `STUDY` column's `visible` field is `some false`,
which is one of the three allowed shapes. -/
theorem c9_witness :
    (some false : Option Bool) = none ∨ (some false : Option Bool) = some true ∨
      (some false : Option Bool) = some false :=
  c9_visible_boolean F0 p0 MutationTableColumnType.STUDY (some false) rfl

/-- C10: the text produced for data-field columns depends only on the
first mutation of the row-group: two non-empty row-groups with the same
first element give the same `getTextForDataField` text, and hence the
same `getDivForDataField` cell, for every field name. -/
theorem c10_first_element_determines_text (m : Mutation)
    (t1 t2 : List Mutation) (f : String) (isInteger : Bool) :
    getTextForDataField (m :: t1) f = getTextForDataField (m :: t2) f ∧
    getDivForDataField (m :: t1) f isInteger =
      getDivForDataField (m :: t2) f isInteger :=
  ⟨rfl, rfl⟩

/-- C4: `orderedColumns` returns exactly the elements of `props.columns`
(the empty list when the prop is absent) — a permutation, nothing added
or dropped — in ascending order of `colSortKey`; and over the table that
`generateColumns` builds the sort key is `-1` for every column type,
because no installed definition carries an `order` value (so a missing
definition and an absent `order` value both give key `-1`, as the claim
states). -/
theorem c4_orderedColumns_spec (F : Formatters) (p : IMutationTableProps) :
    (orderedColumns F p).Perm (p.columns.getD []) ∧
    List.Sorted
      (fun a b =>
        colSortKey (generateColumns F p) a ≤ colSortKey (generateColumns F p) b)
      (orderedColumns F p) ∧
    (∀ c, colSortKey (generateColumns F p) c = -1) := by
  refine ⟨List.mergeSort_perm _ _, ?_, ?_⟩
  · refine List.Pairwise.imp ?_
      (List.sorted_mergeSort ?_ ?_ (p.columns.getD []))
    · intro a b hab
      exact of_decide_eq_true hab
    · intro a b c hab hbc
      simp only [decide_eq_true_eq] at hab hbc ⊢
      exact le_trans hab hbc
    · intro a b
      simp only [Bool.or_eq_true, decide_eq_true_eq]
      exact le_total _ _
  · intro c
    cases c <;> rfl

/-- C5: for each column whose callbacks guard on an optional cache prop,
an absent prop makes the render return the empty `<span></span>`; and for
Copy # it also makes the download and the sortBy return the empty string
and the filter return `false`. -/
theorem c5_cache_absent_spec (F : Formatters) (p : IMutationTableProps)
    (d : List Mutation) (fs fsu : String) :
    (p.mrnaExprRankCache = none →
      colRenderAt F p .MRNA_EXPR d = some (.ok .emptySpan)) ∧
    (p.variantCountCache = none →
      colRenderAt F p .COHORT d = some (.ok .emptySpan)) ∧
    ((p.discreteCNACache = none ∨
        p.molecularProfileIdToMolecularProfile = none) →
      colRenderAt F p .COPY_NUM d = some (.ok .emptySpan) ∧
      colDownloadAt F p .COPY_NUM d = some (.ok (.prim (.str ""))) ∧
      colSortByAt F p .COPY_NUM d = some (.ok (.prim (.str ""))) ∧
      colFilterAt F p .COPY_NUM d fs fsu = some (.ok false)) ∧
    (p.genomeNexusCache = none →
      colRenderAt F p .FUNCTIONAL_IMPACT d = some (.ok .emptySpan) ∧
      colRenderAt F p .EXON d = some (.ok .emptySpan) ∧
      colRenderAt F p .HGVSC d = some (.ok .emptySpan)) := by
  refine ⟨?_, ?_, ?_, ?_⟩
  · intro h
    simp [colRenderAt, generateColumns, h]
  · intro h
    simp [colRenderAt, generateColumns, h]
  · intro h
    rcases h with h | h
    · refine ⟨?_, ?_, ?_, ?_⟩ <;>
        (cases hmp : p.molecularProfileIdToMolecularProfile <;>
          simp [colRenderAt, colDownloadAt, colSortByAt, colFilterAt,
            generateColumns, h, hmp])
    · refine ⟨?_, ?_, ?_, ?_⟩ <;>
        (cases hc : p.discreteCNACache <;>
          simp [colRenderAt, colDownloadAt, colSortByAt, colFilterAt,
            generateColumns, h, hc])
  · intro h
    refine ⟨?_, ?_, ?_⟩ <;> simp [colRenderAt, generateColumns, h]

/-- C5 witness: with every cache prop absent (`p0`), the Copy # render is
the empty span, its filter is `false`, and the mRNA Expr. render is the
empty span. -/
theorem c5_witness :
    colRenderAt F0 p0 .COPY_NUM [m0] = some (.ok .emptySpan) ∧
    colFilterAt F0 p0 .COPY_NUM [m0] "x" "X" = some (.ok false) ∧
    colRenderAt F0 p0 .MRNA_EXPR [m0] = some (.ok .emptySpan) := by
  have h := c5_cache_absent_spec F0 p0 [m0] "x" "X"
  exact ⟨(h.2.2.1 (Or.inl rfl)).1, (h.2.2.1 (Or.inl rfl)).2.2.2, h.1 rfl⟩

/-- C6: when the filtered field carries string (or falsy) values,
`defaultFilter` returns `true` exactly when some row has a truthy value
of the field whose uppercased form contains the uppercase filter string,
and it returns `false` on the empty row-group.  (It cannot modify the
row-group: the embedding is a pure function of it.) -/
theorem c6_defaultFilter_spec (data : List Mutation) (f fsu : String)
    (h : ∀ m ∈ data, strFieldOk m f = true) :
    (defaultFilter data f fsu = .ok true ↔
      ∃ m ∈ data, ∃ s, Mutation.get m f = .str s ∧ s ≠ "" ∧
        jsContainsSubstr (jsToUpper s) fsu = true) ∧
    defaultFilter [] f fsu = .ok false := by
  constructor
  · cases data with
    | nil => simp [defaultFilter]
    | cons m rest =>
      unfold defaultFilter
      rw [if_pos (by simp)]
      rw [defaultFilterGo_eq f fsu (m :: rest) false h]
      simp only [Bool.false_or, Except.ok.injEq]
      rw [List.any_eq_true]
      constructor
      · rintro ⟨x, hx, hp⟩
        exact ⟨x, hx, (matchesFilter_iff x f fsu).mp hp⟩
      · rintro ⟨x, hx, hp⟩
        exact ⟨x, hx, (matchesFilter_iff x f fsu).mpr hp⟩
  · rfl

/-- C6 witness: the one-row group `[m0]` with `sampleId = "TCGA-01"`
matches the uppercase filter string `"TCGA"`. -/
theorem c6_witness : defaultFilter [m0] "sampleId" "TCGA" = .ok true := by
  have h := c6_defaultFilter_spec [m0] "sampleId" "TCGA" (by
    intro x hx
    have hx2 := List.mem_singleton.mp hx
    subst hx2
    decide)
  exact h.1.mpr ⟨m0, by simp, "TCGA-01", by decide, by decide, by decide⟩

/-- C7: the `columns` getter is the order-preserving restriction of
`orderedColumns` to the types that have a definition and are not
excluded; the Functional Impact type survives that restriction exactly
when it is requested in `props.columns` and `props.enableFunctionalImpact`
is truthy; and no generated column other than Functional Impact carries a
`shouldExclude` at all. -/
theorem c7_columns_spec (F : Formatters) (p : IMutationTableProps) :
    columnsGetter F p =
      ((orderedColumns F p).filter (keepType (generateColumns F p))).filterMap
        (generateColumns F p) ∧
    (MutationTableColumnType.FUNCTIONAL_IMPACT ∈
        (orderedColumns F p).filter (keepType (generateColumns F p)) ↔
      MutationTableColumnType.FUNCTIONAL_IMPACT ∈ p.columns.getD [] ∧
        truthyOptBool p.enableFunctionalImpact = true) ∧
    (∀ t col, t ≠ MutationTableColumnType.FUNCTIONAL_IMPACT →
      generateColumns F p t = some col → col.shouldExclude = none) := by
  refine ⟨columnsGetter_eq F p, ?_, ?_⟩
  · have hmem :
        MutationTableColumnType.FUNCTIONAL_IMPACT ∈ orderedColumns F p ↔
          MutationTableColumnType.FUNCTIONAL_IMPACT ∈ p.columns.getD [] :=
      (List.mergeSort_perm _ _).mem_iff
    have hkeep :
        keepType (generateColumns F p)
            MutationTableColumnType.FUNCTIONAL_IMPACT =
          truthyOptBool p.enableFunctionalImpact := by
      simp [keepType, generateColumns, keepCol]
    rw [List.mem_filter, hkeep, hmem]
  · intro t col ht h
    cases t <;>
      first
        | exact absurd rfl ht
        | exact Option.noConfusion h
        | (injection h with he; subst he; rfl)

/-- C7 witness: with the column list `[GENE, FUNCTIONAL_IMPACT]` and
`enableFunctionalImpact` absent, the Functional Impact type is filtered
out: the getter's membership condition evaluates to `false` on both
sides. -/
theorem c7_witness :
    (MutationTableColumnType.FUNCTIONAL_IMPACT ∈
        (orderedColumns F0 p0).filter (keepType (generateColumns F0 p0)) ↔
      MutationTableColumnType.FUNCTIONAL_IMPACT ∈
          (p0.columns.getD []) ∧
        truthyOptBool p0.enableFunctionalImpact = true) :=
  (c7_columns_spec F0 p0).2.1

/-- C3 counterexample: on the empty row-group `[]` the Clonal column's
render evaluates `d[0].sampleId` (line 457); `d[0]` is `undefined`, so
the property read throws a `TypeError` rather than evaluating without a
fatal error. -/
theorem c3_counterexample_empty_rowgroup :
    (generateColumns F0 p0 MutationTableColumnType.CLONAL).map
      (fun col => col.render []) = some (.error .typeErr) := rfl

/-- C3 (amended): for every NON-empty row-group whose rows carry
string-typed values for the fields `defaultFilter` is applied to
(`sampleId`, `mutationStatus`, `validationStatus`, `center`, as the
generated `Mutation` interface declares them), every callback of every
installed column — render, and download/sortBy/filter where present —
evaluates without a fatal error; on the empty row-group the callbacks
that index `d[0]` throw (see the counterexample). -/
theorem c3_nonempty_callbacks_ok (F : Formatters) (p : IMutationTableProps)
    (t : MutationTableColumnType) (d : List Mutation) (fs fsu : String)
    (hd : d ≠ []) (hw : ∀ m ∈ d, mutWellTyped m = true) :
    (generateColumns F p t).all (fun col => callbacksOk col d fs fsu) =
      true := by
  obtain ⟨m, rest, rfl⟩ : ∃ m rest, d = m :: rest := by
    cases d with
    | nil => exact absurd rfl hd
    | cons m rest => exact ⟨m, rest, rfl⟩
  have hsplit : ∀ x ∈ m :: rest, strFieldOk x "sampleId" = true ∧
      strFieldOk x "mutationStatus" = true ∧
      strFieldOk x "validationStatus" = true ∧
      strFieldOk x "center" = true := by
    intro x hx
    have hx2 := hw x hx
    unfold mutWellTyped at hx2
    simp only [Bool.and_eq_true] at hx2
    exact ⟨hx2.1.1.1, hx2.1.1.2, hx2.1.2, hx2.2⟩
  have hdf1 := defaultFilter_isOk (m :: rest) "sampleId" fsu
    (fun x hx => (hsplit x hx).1)
  have hdf2 := defaultFilter_isOk (m :: rest) "mutationStatus" fsu
    (fun x hx => (hsplit x hx).2.1)
  have hdf3 := defaultFilter_isOk (m :: rest) "validationStatus" fsu
    (fun x hx => (hsplit x hx).2.2.1)
  have hdf4 := defaultFilter_isOk (m :: rest) "center" fsu
    (fun x hx => (hsplit x hx).2.2.2)
  cases t <;>
    simp [generateColumns, Option.all, callbacksOk, hdf1, hdf2, hdf3, hdf4]
  all_goals
    cases hc : p.discreteCNACache <;>
      cases hmp : p.molecularProfileIdToMolecularProfile <;>
      simp [hc, hmp]

/-- C3 witness: the one-row group `[m0]` is non-empty and well-typed, and
every callback of the Clonal column succeeds on it. -/
theorem c3_witness :
    ([m0] : List Mutation) ≠ [] ∧ mutWellTyped m0 = true ∧
      (generateColumns F0 p0 MutationTableColumnType.CLONAL).all
        (fun col => callbacksOk col [m0] "X" "X") = true := by
  refine ⟨by decide, by decide, ?_⟩
  exact c3_nonempty_callbacks_ok F0 p0 MutationTableColumnType.CLONAL [m0]
    "X" "X" (by decide)
    (by
      intro x hx
      have hx2 := List.mem_singleton.mp hx
      subst hx2
      decide)
